import Mathlib

/-!
Verification of the Copypoint launcher (`src/_CopypointProject/main.cpp`).

The program is a straight-line Windows launcher: it queries the absolute
path of its own executable (`GetModuleFileNameA`), truncates the buffer at
the last backslash (`strrchr` + writing a NUL), appends the literal
`"\run.bat"` (`strcat`), passes the result to `ShellExecuteA` with the
`"open"` verb and `SW_SHOWNORMAL`, and returns 0.

We embed the string manipulation as functions on `List Char` (the contents
of the C string in the `exePath` buffer, terminator excluded), and the whole
run as a pure function from the OS-provided environment and the (unused)
command line to a trace of OS-visible events plus the process exit code.
-/

namespace Copypoint

/-- The path-separator character searched for by `strrchr(exePath, '\\')`. -/
def sep : Char := '\\'

/-- The suffix appended by `strcat(exePath, "\\run.bat")`: a backslash
followed by the literal companion filename `run.bat`. -/
def runBatSuffix : List Char := ("\\run.bat").data

/-- `MAX_PATH` from `<windows.h>`: the size in bytes of the `exePath`
buffer declared as `char exePath[MAX_PATH]`. -/
def MAX_PATH : Nat := 260

/-- Step 2 of `WinMain`: `char *p = strrchr(exePath, '\\'); if (p) *p = '\0';`.
If the separator occurs in the string, the string is cut just before its
last occurrence; otherwise the string is left unchanged. -/
def truncAtLastSep : List Char → List Char
  | [] => []
  | c :: cs =>
      if sep ∈ cs then c :: truncAtLastSep cs
      else if c = sep then [] else c :: cs

/-- Steps 2–3 of `WinMain`: truncate the resolved path at its last
backslash (if any), then `strcat` the `"\run.bat"` suffix onto it. -/
def buildCompanionPath (s : List Char) : List Char :=
  truncAtLastSep s ++ runBatSuffix

/-- Total bytes of the `exePath` buffer occupied once `strcat` has run:
the truncated string, the 8 characters of `"\run.bat"`, and the NUL
terminator (9 bytes of suffix in all, as the unchecked `strcat` writes). -/
def bytesWritten (s : List Char) : Nat :=
  (truncAtLastSep s).length + 9

/-- `SW_SHOWNORMAL` from `<windows.h>`. -/
def SW_SHOWNORMAL : Nat := 1

/-- The six arguments of one `ShellExecuteA` request; `none` stands for a
`NULL` pointer argument. -/
structure ShellExecuteCall where
  hWnd : Option Nat
  verb : List Char
  file : List Char
  params : Option (List Char)
  directory : Option (List Char)
  showCmd : Nat
deriving DecidableEq

/-- The environment one run receives from the OS: the module path that
`GetModuleFileNameA` writes into the buffer, whether the companion file
exists, whether a handler for `.bat` files is registered, and how long the
launched companion process subsequently runs. -/
structure OsEnv where
  modulePath : List Char
  companionExists : Bool
  handlerRegistered : Bool
  companionRunTime : Nat
deriving DecidableEq

/-- Model of the external `ShellExecuteA` service: a value greater than 32
when the target exists and a handler is registered, an error code
otherwise.  The launcher receives this value and discards it. -/
def shellExecuteA (env : OsEnv) (c : ShellExecuteCall) : Int :=
  if env.companionExists && env.handlerRegistered then 33 else 2

/-- The OS-visible events of one run.  `waitForProcess` models a blocking
wait on a launched process; the source contains no wait call, so the
embedded program never emits it. -/
inductive Event where
  | getModuleFileName (written : List Char)
  | shellOpen (c : ShellExecuteCall) (result : Int)
  | waitForProcess (duration : Nat)
  | ret (code : Int)
deriving DecidableEq

/-- The result of one run: the ordered trace of OS-visible events and the
process exit code. -/
structure RunOutcome where
  trace : List Event
  exitCode : Int
deriving DecidableEq

/-- Shallow embedding of `WinMain`: resolve the module path, build the
companion path, issue exactly one `ShellExecuteA` request
(`NULL`, `"open"`, companion path, `NULL`, `NULL`, `SW_SHOWNORMAL`),
discard its result, and return 0.  The command line `lpCmdLine` is a
parameter of `WinMain` but is never read by the body. -/
def winMain (env : OsEnv) (lpCmdLine : List Char) : RunOutcome :=
  let exePath := env.modulePath
  let companion := buildCompanionPath exePath
  let call : ShellExecuteCall :=
    ⟨none, ("open").data, companion, none, none, SW_SHOWNORMAL⟩
  let result := shellExecuteA env call
  ⟨[Event.getModuleFileName exePath, Event.shellOpen call result,
      Event.ret 0], 0⟩

/-- The `ShellExecuteA` requests issued during a run, in order. -/
def shellOpenCalls (o : RunOutcome) : List ShellExecuteCall :=
  o.trace.filterMap fun e =>
    match e with
    | Event.shellOpen c _ => some c
    | _ => none

/-- Replace the companion process's subsequent running time in an
environment, leaving the parts the launcher can observe unchanged. -/
def withRunTime : OsEnv → Nat → OsEnv
  | ⟨mp, ce, hr, _⟩, d => ⟨mp, ce, hr, d⟩

/-! ### Helper lemmas about the truncation step -/

/-- If the separator does not occur, `strrchr` returns `NULL` and the
truncation step leaves the string unchanged. -/
theorem truncAtLastSep_of_not_mem (s : List Char) (h : sep ∉ s) :
    truncAtLastSep s = s := by
  induction s with
  | nil => rfl
  | cons c cs ih =>
      rw [List.mem_cons, not_or] at h
      simp [truncAtLastSep, h.2, Ne.symm h.1]

/-- Truncation cuts exactly at the last separator: on `a ++ '\' :: b` with
no separator in `b`, it returns `a`. -/
theorem truncAtLastSep_append (a b : List Char) (hb : sep ∉ b) :
    truncAtLastSep (a ++ sep :: b) = a := by
  induction a with
  | nil => simp [truncAtLastSep, hb]
  | cons c a' ih =>
      have hm : sep ∈ a' ++ sep :: b :=
        List.mem_append_right a' (List.mem_cons_self sep b)
      simp [truncAtLastSep, hm, ih]

/-- The appended suffix starts with the separator and its remainder,
`run.bat`, contains no separator. -/
theorem sep_not_mem_runBat : sep ∉ ("run.bat").data := by decide

/-! ### Claims -/

/-- Claim C1: for every executable path containing at least one backslash
(written uniquely as `a ++ '\' :: b` with no backslash in `b`), the derived
companion path equals the prefix up to, but excluding, the last backslash,
followed by a backslash and the literal `run.bat`. -/
theorem c1_companion_of_path_with_sep (a b : List Char) (hb : sep ∉ b) :
    buildCompanionPath (a ++ sep :: b) = a ++ runBatSuffix := by
  unfold buildCompanionPath
  rw [truncAtLastSep_append a b hb]

/-- Witness for C1 at the spec's example `C:\Tools\App\App.exe`, whose
companion path is `C:\Tools\App\run.bat`. -/
theorem c1_companion_of_path_with_sep_witness :
    sep ∉ ("App.exe").data ∧
      buildCompanionPath (("C:\\Tools\\App").data ++ sep :: ("App.exe").data) =
        ("C:\\Tools\\App").data ++ runBatSuffix :=
  ⟨by decide,
    c1_companion_of_path_with_sep (("C:\\Tools\\App").data) (("App.exe").data)
      (by decide)⟩

/-- Claim C2: on a path with no backslash, the truncation step is the
identity, and the companion path is the original string with `\run.bat`
appended verbatim. -/
theorem c2_companion_of_sep_free_path (s : List Char) (h : sep ∉ s) :
    truncAtLastSep s = s ∧ buildCompanionPath s = s ++ runBatSuffix := by
  refine ⟨truncAtLastSep_of_not_mem s h, ?_⟩
  unfold buildCompanionPath
  rw [truncAtLastSep_of_not_mem s h]

/-- Witness for C2 at the spec's example `App.exe`, whose companion path is
`App.exe\run.bat`. -/
theorem c2_companion_of_sep_free_path_witness :
    sep ∉ ("App.exe").data ∧
      (truncAtLastSep (("App.exe").data) = ("App.exe").data ∧
        buildCompanionPath (("App.exe").data) =
          ("App.exe").data ++ runBatSuffix) :=
  ⟨by decide, c2_companion_of_sep_free_path (("App.exe").data) (by decide)⟩

/-- Claim C3: whatever the environment (companion present or not, handler
registered or not, hence whatever `ShellExecuteA` returns) and whatever the
resolved path and command line, the process exit code is the fixed success
value 0. -/
theorem c3_exit_code_always_zero (env : OsEnv) (lpCmdLine : List Char) :
    (winMain env lpCmdLine).exitCode = 0 := rfl

/-- Claim C4: every run issues exactly one shell-open request, and it
carries exactly `NULL` parent window, the `"open"` verb, the derived
companion path, `NULL` arguments, `NULL` working directory and
`SW_SHOWNORMAL`. -/
theorem c4_single_shell_open_request (env : OsEnv) (lpCmdLine : List Char) :
    shellOpenCalls (winMain env lpCmdLine) =
      [⟨none, ("open").data, buildCompanionPath env.modulePath, none, none,
        SW_SHOWNORMAL⟩] := rfl

/-- Claim C5: two invocations with the same resolved executable path but
arbitrary, possibly different, command-line strings produce the same
outcome (same trace, so same companion path and shell request, and the
same exit code): the command-line parameter is never read. -/
theorem c5_cmdline_never_read (env : OsEnv) (cmd₁ cmd₂ : List Char) :
    winMain env cmd₁ = winMain env cmd₂ := rfl

/-- Claim C6, as stated, is false at a concrete input: a separator-free
path of 251 characters exceeds the claimed `MAX_PATH - 10` bound after
(no-op) truncation, yet the `strcat` still stays within the
`MAX_PATH`-byte buffer (251 + 9 = 260 bytes exactly). -/
theorem c6_buffer_bound_counterexample :
    bytesWritten (List.replicate 251 'a') ≤ MAX_PATH ∧
      ¬ (truncAtLastSep (List.replicate 251 'a')).length ≤ MAX_PATH - 10 := by
  have hn : sep ∉ List.replicate 251 'a' := fun hm =>
    absurd (List.eq_of_mem_replicate hm) (by decide)
  constructor
  · unfold bytesWritten
    rw [truncAtLastSep_of_not_mem _ hn, List.length_replicate]
    decide
  · rw [truncAtLastSep_of_not_mem _ hn, List.length_replicate]
    decide

/-- Claim C6 (amended): the unchecked `strcat` of the 9-byte suffix
`\run.bat` (terminator included) stays within the `MAX_PATH`-byte buffer
exactly when the path remaining after truncation at the last backslash is
at most `MAX_PATH - 9` characters long; and for a resolvable path — the
separator-free string of length `MAX_PATH - 1`, the longest
`GetModuleFileNameA` can deliver — the append writes past the end of the
buffer. -/
theorem c6_buffer_bound_amended :
    (∀ s : List Char,
        bytesWritten s ≤ MAX_PATH ↔
          (truncAtLastSep s).length ≤ MAX_PATH - 9) ∧
      (sep ∉ List.replicate 259 'a' ∧
        (List.replicate 259 'a').length = MAX_PATH - 1 ∧
        MAX_PATH < bytesWritten (List.replicate 259 'a')) := by
  have hn : sep ∉ List.replicate 259 'a' := fun hm =>
    absurd (List.eq_of_mem_replicate hm) (by decide)
  refine ⟨fun s => ?_, hn, by rw [List.length_replicate]; decide, ?_⟩
  · unfold bytesWritten MAX_PATH
    omega
  · unfold bytesWritten
    rw [truncAtLastSep_of_not_mem _ hn, List.length_replicate]
    decide

/-- Claim C7: the run never emits a wait event, its trace is exactly the
path query, the single shell-open request, and an immediate return with
code 0, and the trace is unchanged under any change of the companion
process's subsequent running time. -/
theorem c7_no_wait_and_immediate_return (env : OsEnv) (lpCmdLine : List Char) :
    (∀ d, Event.waitForProcess d ∉ (winMain env lpCmdLine).trace) ∧
      (∀ d d', winMain (withRunTime env d) lpCmdLine =
          winMain (withRunTime env d') lpCmdLine) ∧
      (winMain env lpCmdLine).trace =
        [Event.getModuleFileName env.modulePath,
          Event.shellOpen
            ⟨none, ("open").data, buildCompanionPath env.modulePath, none,
              none, SW_SHOWNORMAL⟩
            (shellExecuteA env
              ⟨none, ("open").data, buildCompanionPath env.modulePath, none,
                none, SW_SHOWNORMAL⟩),
          Event.ret 0] := by
  obtain ⟨mp, ce, hr, rt⟩ := env
  refine ⟨fun d => ?_, fun d d' => rfl, rfl⟩
  simp [winMain]

/-- Claim C8: the run is a pure function of the OS-returned path: two
invocations whose environments agree on the resolved path, whatever their
other circumstances and command lines, issue identical shell-open requests
and exit with identical codes. -/
theorem c8_pure_function_of_path (env₁ env₂ : OsEnv) (cmd₁ cmd₂ : List Char)
    (h : env₁.modulePath = env₂.modulePath) :
    shellOpenCalls (winMain env₁ cmd₁) = shellOpenCalls (winMain env₂ cmd₂) ∧
      (winMain env₁ cmd₁).exitCode = (winMain env₂ cmd₂).exitCode := by
  constructor
  · show [(⟨none, ("open").data, buildCompanionPath env₁.modulePath, none,
        none, SW_SHOWNORMAL⟩ : ShellExecuteCall)] =
      [⟨none, ("open").data, buildCompanionPath env₂.modulePath, none, none,
        SW_SHOWNORMAL⟩]
    rw [h]
  · rfl

/-- Witness for C8: two environments sharing the path `C:\A\b.exe` but
differing in companion presence, handler registration, companion running
time and command line behave identically. -/
theorem c8_pure_function_of_path_witness :
    (OsEnv.mk (("C:\\A\\b.exe").data) true true 0).modulePath =
        (OsEnv.mk (("C:\\A\\b.exe").data) false false 7).modulePath ∧
      (shellOpenCalls
            (winMain (OsEnv.mk (("C:\\A\\b.exe").data) true true 0) []) =
          shellOpenCalls
            (winMain (OsEnv.mk (("C:\\A\\b.exe").data) false false 7)
              (("x").data)) ∧
        (winMain (OsEnv.mk (("C:\\A\\b.exe").data) true true 0) []).exitCode =
          (winMain (OsEnv.mk (("C:\\A\\b.exe").data) false false 7)
              (("x").data)).exitCode) :=
  ⟨rfl,
    c8_pure_function_of_path (OsEnv.mk (("C:\\A\\b.exe").data) true true 0)
      (OsEnv.mk (("C:\\A\\b.exe").data) false false 7) [] (("x").data) rfl⟩

/-- Claim C9: the path derivation is idempotent (under the buffer-capacity
precondition): applied to its own output it returns that output unchanged,
because `run.bat` contains no separator, so the second application strips
exactly the appended component and re-appends it. -/
theorem c9_derivation_idempotent (p : List Char)
    (h : bytesWritten p ≤ MAX_PATH) :
    buildCompanionPath (buildCompanionPath p) = buildCompanionPath p :=
  calc buildCompanionPath (buildCompanionPath p)
      = truncAtLastSep (truncAtLastSep p ++ sep :: ("run.bat").data) ++
          runBatSuffix := rfl
    _ = truncAtLastSep p ++ runBatSuffix := by
          rw [truncAtLastSep_append _ _ sep_not_mem_runBat]
    _ = buildCompanionPath p := rfl

/-- Witness for C9 at `C:\A\b.exe`: the capacity precondition holds and the
derivation is idempotent there. -/
theorem c9_derivation_idempotent_witness :
    bytesWritten (("C:\\A\\b.exe").data) ≤ MAX_PATH ∧
      buildCompanionPath (buildCompanionPath (("C:\\A\\b.exe").data)) =
        buildCompanionPath (("C:\\A\\b.exe").data) :=
  ⟨by decide, c9_derivation_idempotent (("C:\\A\\b.exe").data) (by decide)⟩

/-- Claim C10: if the buffer holds the empty string when derivation begins,
no separator is found, the derived companion path is exactly `\run.bat`,
and that root-relative string is the target of the shell-open request. -/
theorem c10_empty_buffer_gives_root_run_bat (ce hr : Bool) (rt : Nat)
    (lpCmdLine : List Char) :
    buildCompanionPath [] = ("\\run.bat").data ∧
      shellOpenCalls (winMain (OsEnv.mk [] ce hr rt) lpCmdLine) =
        [⟨none, ("open").data, ("\\run.bat").data, none, none,
          SW_SHOWNORMAL⟩] :=
  ⟨rfl, rfl⟩

end Copypoint
